import Mathlib

/-!
Shallow embedding of the DemartAI inventory system.

Conventions used throughout:
* Python float literals that act as exact rational constants (`0.2`, `1.5`, and the
  seasonal multipliers `0.8 .. 1.5`) are represented exactly: multipliers are scaled
  by 10 and kept as `Nat`, `int(x * 0.2)` becomes truncating division by 5, the float
  comparison `x > y * 1.5` becomes the exact integer comparison `2 * x > 3 * y`, and
  `int(x * 1.5)` becomes `(3 * x).tdiv 2`; these shortcuts agree with the IEEE
  computation everywhere but at astronomically large stocks.  The one place where
  binary64 rounding changes an ordinary result — `int(base_demand * multiplier)` in
  the known-product path, where Python computes `int(90 * 1.4) = 125` — is modelled
  bit-exactly (`pyIntMulTenths`: round the decimal literal to binary64, round the
  product to binary64 with ties to even, truncate).
* Python `int(...)` truncates toward zero, which is `Int.tdiv`.
* Python dicts used as lookup tables become association lists (`List (α × β)`), whose
  `List.lookup` mirrors `dict.get`; dict iteration order is insertion order, which the
  list order preserves.
* Fallible conversions return `Option`; the HTTP layer's 400 responses become an
  explicit error constructor.
-/

namespace DemartAI

/-! ## `src/models/predictor.py` -/

/-- The record built by `InventoryPredictor._generate_recommendation`.
Numeric fields are `Int` (Python ints); `decision` and `advice` are the literal
strings the code produces. -/
structure Recommendation where
  decision : String
  advice : String
  quantity_action : Int
  optimal_level : Int
  reorder_point : Int
  safety_stock : Int
  required_stock : Int
  stock_gap : Int
deriving DecidableEq

/-- `InventoryPredictor._generate_recommendation(current_stock, predicted_demand, season)`.
`int(predicted_demand * 0.2)` is modelled exactly as `predicted_demand.tdiv 5` and the
float comparison `current_stock > optimal_stock * 1.5` exactly as
`2 * current_stock > 3 * optimal_stock`.  The `season` argument is accepted but unused,
as in the source. -/
def generate_recommendation (current_stock predicted_demand : Int) (_season : String) :
    Recommendation :=
  let safety_stock := predicted_demand.tdiv 5
  let reorder_point := predicted_demand
  let optimal_stock := predicted_demand + safety_stock
  let required_stock := optimal_stock
  let stock_gap := max 0 (required_stock - current_stock)
  if current_stock < reorder_point then
    { decision := "ADD STOCK"
      advice := "Add " ++ toString (optimal_stock - current_stock) ++ " units"
      quantity_action := optimal_stock - current_stock
      optimal_level := optimal_stock, reorder_point, safety_stock, required_stock, stock_gap }
  else if 2 * current_stock > 3 * optimal_stock then
    { decision := "REDUCE STOCK"
      advice := "Reduce by " ++ toString (current_stock - optimal_stock) ++ " units"
      quantity_action := current_stock - optimal_stock
      optimal_level := optimal_stock, reorder_point, safety_stock, required_stock, stock_gap }
  else
    { decision := "MAINTAIN"
      advice := "Maintain " ++ toString current_stock ++ " units"
      quantity_action := current_stock
      optimal_level := optimal_stock, reorder_point, safety_stock, required_stock, stock_gap }

/-- `InventoryPredictor._get_default_seasonal_patterns`, with every multiplier scaled
by 10 (so `1.5` is `15`, `0.8` is `8`, ...). -/
def get_default_seasonal_patterns : List (String × List (String × Nat)) :=
  [("Summer",
    [("Beverages", 15), ("Fruits", 14), ("Vegetables", 13), ("Groceries", 10),
     ("Personal Care", 12)]),
   ("Winter",
    [("Beverages", 8), ("Fruits", 9), ("Vegetables", 12), ("Groceries", 11),
     ("Personal Care", 10)]),
   ("Monsoon",
    [("Beverages", 12), ("Fruits", 11), ("Vegetables", 10), ("Groceries", 13),
     ("Personal Care", 14)]),
   ("Regular",
    [("Beverages", 10), ("Fruits", 10), ("Vegetables", 10), ("Groceries", 10),
     ("Personal Care", 10)])]

/-- `self.seasonal_patterns.get(season, {}).get(category, 1.0)` from
`predict_stock_requirement` (the repository ships no `data/seasonal_patterns.json`, so
`seasonal_patterns` is the default table above).  Result is the multiplier scaled
by 10; the `1.0` default is `10`. -/
def seasonal_multiplier (season category : String) : Nat :=
  match List.lookup season get_default_seasonal_patterns with
  | none => 10
  | some sub => (List.lookup category sub).getD 10

/-- The `category_demands` dict of `InventoryPredictor._get_category_base_demand`. -/
def category_demands : List (String × Nat) :=
  [("Groceries", 150), ("Dairy", 200), ("Beverages", 180), ("Fruits", 120),
   ("Vegetables", 140), ("Personal Care", 90), ("Snacks", 160), ("Frozen", 80),
   ("Condiments", 70), ("Miscellaneous", 100)]

/-- `InventoryPredictor._get_category_base_demand(category)`:
`category_demands.get(category, 100)`. -/
def get_category_base_demand (category : String) : Nat :=
  (List.lookup category category_demands).getD 100

/-- One entry of `self.products_data`.  `category`, `current_price` and `unit` are
optional because the code reads them with `product.get(..., default)`.  Prices are
modelled as `Int` (no claim depends on fractional prices). -/
structure Product where
  name : String
  category : Option String
  current_price : Option Int
  unit : Option String
deriving DecidableEq

/-- The dict returned by `predict_stock_requirement` / `_get_default_prediction`.
`seasonal_multiplier` is scaled by 10, as above. -/
structure PredictionResult where
  product : String
  category : String
  current_stock : Int
  season : String
  predicted_demand : Int
  seasonal_multiplier : Nat
  recommendation : Recommendation
  price : Int
  unit : String
deriving DecidableEq

/-- The `seasonal_factors` dict of `InventoryPredictor._get_default_prediction`,
scaled by 10. -/
def seasonal_factors : List (String × Nat) :=
  [("Summer", 13), ("Winter", 9), ("Monsoon", 12), ("Regular", 10)]

/-- `InventoryPredictor._get_default_prediction(product_name, current_stock, season)`.
`int(100 * factor)` is modelled exactly as `(100 * factor10) / 10` in `Nat` (for these
four factors the IEEE computation agrees). -/
def get_default_prediction (product_name : String) (current_stock : Int)
    (season : String) : PredictionResult :=
  let factor := (List.lookup season seasonal_factors).getD 10
  let predicted_demand : Int := ((100 * factor) / 10 : Nat)
  { product := product_name
    category := "Miscellaneous"
    current_stock
    season
    predicted_demand
    seasonal_multiplier := factor
    recommendation := generate_recommendation current_stock predicted_demand season
    price := 0
    unit := "pack" }

/-- Round the rational `a / b` to the nearest integer, ties to even (for `b > 0`). -/
def roundNearestEven (a b : Nat) : Nat :=
  let q := a / b
  let r := a % b
  if 2 * r < b then q
  else if b < 2 * r then q + 1
  else if q % 2 = 0 then q else q + 1

/-- The IEEE-754 binary64 value nearest to the decimal `m10 / 10`, for `m10` in the
binades `[0.5, 1)` and `[1, 2)` (the seasonal multipliers all lie in `[0.8, 1.5]`),
as a dyadic pair `(num, sc)` denoting `num / 2 ^ sc` with a 53-bit significand. -/
def doubleOfTenths (m10 : Nat) : Nat × Nat :=
  if m10 < 10 then (roundNearestEven (m10 * 2 ^ 53) 10, 53)
  else (roundNearestEven (m10 * 2 ^ 52) 10, 52)

/-- `⌊log₂ n⌋` by structural recursion on explicit fuel, so that it evaluates inside
the kernel (`Nat.log2` uses well-founded recursion and does not). -/
def log2Fuel : Nat → Nat → Nat
  | 0, _ => 0
  | fuel + 1, n => if n ≤ 1 then 0 else log2Fuel fuel (n / 2) + 1

/-- `⌊log₂ n⌋` for `n < 2 ^ 64` (and 0 at 0). -/
def natLog2 (n : Nat) : Nat := log2Fuel 64 n

/-- Python `int(base * m)` where `m` is the stored binary64 for the decimal literal
`m10 / 10`: the exact product is rounded to binary64 (round to nearest, ties to
even, in the product's own binade) and truncated.  This is bit-exact over the
table's range; in particular `pyIntMulTenths 90 14 = 125` (Python's
`int(90 * 1.4)`), where naive rational arithmetic would give 126. -/
def pyIntMulTenths (base m10 : Nat) : Nat :=
  let p := doubleOfTenths m10
  let n := base * p.1
  let k := natLog2 n - p.2
  let d := roundNearestEven n (2 ^ (p.2 + k - 52))
  d * 2 ^ k / 2 ^ 52

/-- `InventoryPredictor.predict_stock_requirement(product_name, current_stock, season)`.
The catalog `products_data` is passed explicitly (the instance loads it once at
construction).  `int(base_demand * seasonal_multiplier)` is modelled bit-exactly by
`pyIntMulTenths`. -/
def predict_stock_requirement (products_data : List Product) (product_name : String)
    (current_stock : Int) (season : String) : PredictionResult :=
  match products_data.find? (fun p => p.name == product_name) with
  | none => get_default_prediction product_name current_stock season
  | some product =>
    let category := product.category.getD "Groceries"
    let m := seasonal_multiplier season category
    let base := get_category_base_demand category
    let predicted_demand : Int := (pyIntMulTenths base m : Nat)
    { product := product_name
      category
      current_stock
      season
      predicted_demand
      seasonal_multiplier := m
      recommendation := generate_recommendation current_stock predicted_demand season
      price := product.current_price.getD 0
      unit := product.unit.getD "pack" }

/-! ## `src/app.py` — the `/api/analyze` endpoint -/

/-- A JSON value as decoded by `request.get_json()` (the shapes relevant to the
`stock` field). -/
inductive JsonVal where
  | jint (n : Int)
  | jstr (s : String)
  | jbool (b : Bool)
  | jnull
deriving DecidableEq

/-- Digit accumulator for `pyParseInt`: `none` means no digit seen yet. -/
def parseDigits : List Char → Option Nat → Option Nat
  | [], acc => acc
  | c :: rest, acc =>
    if c.isDigit then
      parseDigits rest (some ((acc.getD 0) * 10 + (c.toNat - 48)))
    else
      none

/-- Python `int(s)` on a string: an optional sign followed by at least one digit
(surrounding whitespace and underscore separators are not modelled); anything else
raises `ValueError`, i.e. `none`. -/
def pyParseInt (s : String) : Option Int :=
  match s.data with
  | '-' :: rest => (parseDigits rest none).map (fun n => -(n : Int))
  | '+' :: rest => (parseDigits rest none).map (fun n => (n : Int))
  | l => (parseDigits l none).map (fun n => (n : Int))

/-- Python `int(x)` on a decoded JSON value: ints pass through unchanged (negative
included), bools coerce to 0/1, strings are parsed as integer literals, `null` raises
`TypeError` (`none`). -/
def pyInt : JsonVal → Option Int
  | .jint n => some n
  | .jstr s => pyParseInt s
  | .jbool b => some (if b then 1 else 0)
  | .jnull => none

/-- The request body of `/api/analyze`; `none` marks a missing key. -/
structure AnalyzeRequest where
  product : Option String
  season : Option String
  stock : Option JsonVal
deriving DecidableEq

/-- Outcome of `api_analyze`: a 400 client error or a 200 with the prediction. -/
inductive ApiResult where
  | clientError (msg : String)
  | success (result : PredictionResult)
deriving DecidableEq

/-- `api_analyze` from `src/app.py`: reject when any of `product`/`season`/`stock` is
missing, reject when `int(data["stock"])` raises, otherwise run the predictor on the
converted stock.  The database/logging side effects are omitted (they do not affect
the response). -/
def api_analyze (products_data : List Product) (data : AnalyzeRequest) : ApiResult :=
  match data.product, data.season, data.stock with
  | some product, some season, some stockVal =>
    match pyInt stockVal with
    | none => .clientError "Invalid stock value"
    | some stock =>
      .success (predict_stock_requirement products_data product stock season)
  | _, _, _ => .clientError "Missing required fields"

/-! ## `src/app.py` — `get_fallback_response` -/

/-- Python `str.lower()` (character-wise). -/
def lowerStr (s : String) : String := String.mk (s.data.map Char.toLower)

/-- Python substring containment `needle in hay`, on character lists. -/
def subListOf (needle : List Char) : List Char → Bool
  | [] => needle.isEmpty
  | c :: rest => needle.isPrefixOf (c :: rest) || subListOf needle rest

/-- Python `needle in hay` on strings. -/
def strContains (needle hay : String) : Bool := subListOf needle.data hay.data

/-- The `responses` dict of `get_fallback_response`, in insertion order. -/
def fallback_responses : List (String × String) :=
  [("seasonal trends dairy", "Dairy products have stable demand year-round with slight increases during winter months. Yogurt and flavored milk see higher demand in summer. Plan inventory considering festivals like Diwali and Holi."),
   ("seasonal trends vegetable", "Vegetables follow strong seasonal patterns. Summer vegetables: tomatoes, cucumber, bell peppers peak. Winter: root vegetables, leafy greens dominate. Monsoon brings better shelf life for stored vegetables."),
   ("seasonal trends fruit", "Fruits are highly seasonal. Mangoes: summer peak. Apples/grapes: winter. Monsoon: stone fruits, citrus. Plan sourcing 2-3 weeks ahead. Consider storage capacity."),
   ("festival demand", "Festival seasons (Diwali, Holi, NewYear) see 1.5-2x demand increases. Stock special items 3 weeks before. Snacks and dry goods see highest demand. Plan bulk purchases."),
   ("summer inventory", "Summer strategy: Stock beverages at 1.5x normal levels. Increase fruits/vegetables daily. Reduce dairy shelf life considerations. Push ice-cream and cold beverages. Monitor expiry dates closely."),
   ("winter inventory", "Winter strategy: Increase dairy products. Stock warm beverages (tea, coffee). Promote bakery items. Increase storage for longer shelf-life items. Plan for holiday shopping rush."),
   ("inventory management", "Best practices: Monitor reorder points closely. Maintain 20% safety stock. Track fast-moving items weekly. Implement FIFO. Use inventory management system. Regular stock audits."),
   ("pricing strategy", "Peak season: maintain or increase prices slightly. Off-season: run promotions. Monitor competitor pricing. Bundle slow items. Use dynamic pricing for perishables. Plan seasonal discounts."),
   ("demand forecast", "Use historical data from same season last year. Adjust for growth (5-10% annual). Consider local events and festivals. Track weather patterns. Update forecasts weekly."),
   ("reorder point", "Calculate: (Average Daily Sales \xd7 Lead Time) + Safety Stock. Review monthly. Adjust for seasonality. Set alerts in system. Monitor supplier reliability."),
   ("hello", "Hello! I\x27m your D-Mart AI Assistant. I can help with inventory management, seasonal planning, pricing strategies, and product insights. What would you like to know?"),
   ("hi", "Hi there! Ask me about inventory optimization, seasonal trends, pricing, or product categories. How can I help today?"),
   ("help", "I can assist with: inventory management, seasonal demand forecasting, pricing strategies, category insights, stock optimization, and retail best practices. What\x27s your question?")]

/-- The `keywords` dict of `get_fallback_response`, in insertion order. -/
def fallback_keywords : List (String × String) :=
  [("dairy", "Dairy products are staple items with consistent demand. Winter sees 1.3x demand. Consider storage capacity and shelf life."),
   ("vegetable", "Vegetables are seasonal. Fresh sourcing critical. Monsoon: 1.0x. Summer: 1.3x. Winter: 1.2x demand."),
   ("beverage", "Beverages peak in summer (1.5x demand). Winter demand drops. Keep cold drinks well-stocked in summer."),
   ("season", "Seasons significantly impact inventory. Summer: beverages, fruits up. Winter: dairy, bakery up. Monsoon: groceries up."),
   ("price", "Pricing depends on seasonality and demand. Peak season: maintain/increase. Off-season: promote. Monitor costs."),
   ("stock", "Monitor stock levels closely. Set reorder points based on demand. Keep safety stock at 20%."),
   ("forecast", "Demand forecasting uses historical data, seasonality, and growth projections. Update weekly.")]

/-- The final `return` of `get_fallback_response`. -/
def fallback_default_msg : String :=
  "I\x27d be happy to help! Ask me about inventory management, seasonal trends, pricing strategies, demand forecasting, or product categories. For real-time AI responses, please configure a Google Gemini API key in the .env file."

/-- `for key, response in table.items(): if key in q: return response` — the first
table entry whose key is contained in `q`. -/
def firstContained (table : List (String × String)) (q : String) : Option String :=
  (table.find? (fun kv => strContains kv.1 q)).map (fun kv => kv.2)

/-- `get_fallback_response(query)` from `src/app.py`: lowercase the query, scan the
phrase table, then the keyword table, else the fixed default message. -/
def get_fallback_response (query : String) : String :=
  let query_lower := lowerStr query
  match firstContained fallback_responses query_lower with
  | some response => response
  | none =>
    match firstContained fallback_keywords query_lower with
    | some response => response
    | none => fallback_default_msg

/-! ## `src/database.py` — `get_analytics_data` -/

/-- A row of the `inventory_analysis` table, restricted to the columns the analytics
and offer code read.  Rows are handed to the aggregation already ordered by
`created_at` descending (the `ORDER BY` of the queries that produce them). -/
structure AnalysisRecord where
  product_name : String
  category : String
  season : String
  decision : Option String
  current_stock : Int
  predicted_demand : Int
deriving DecidableEq

/-- A row of the `chatbot_conversations` table (the columns analytics reads). -/
structure ChatRecord where
  user_message : String
  bot_response : String
  source : String
deriving DecidableEq

/-- Add one occurrence of `key` to a frequency map kept as an association list. -/
def bumpCount (key : String) : List (String × Nat) → List (String × Nat)
  | [] => [(key, 1)]
  | (k, n) :: rest =>
    if k = key then (k, n + 1) :: rest else (k, n) :: bumpCount key rest

/-- `SELECT key, COUNT(*) ... GROUP BY key` as a frequency map. -/
def countBy (key : α → String) (l : List α) : List (String × Nat) :=
  l.foldl (fun acc a => bumpCount (key a) acc) []

/-- Insert into a count-descending list (for `ORDER BY count DESC`). -/
def insertByCount (p : String × Nat) : List (String × Nat) → List (String × Nat)
  | [] => [p]
  | q :: rest => if q.2 < p.2 then p :: q :: rest else q :: insertByCount p rest

/-- Sort a frequency map by count, descending. -/
def sortByCountDesc (l : List (String × Nat)) : List (String × Nat) :=
  l.foldr insertByCount []

/-- The dict returned by a successful `get_analytics_data` run. -/
structure AnalyticsSummary where
  total_analyses : Nat
  categories : List (String × Nat)
  seasons : List (String × Nat)
  decisions : List (String × Nat)
  top_products : List (String × Nat)
  recent_analyses : List AnalysisRecord
  total_chats : Nat
  chat_sources : List (String × Nat)
deriving DecidableEq

/-- The pure reduction inside the `try` block of `get_analytics_data`: counts, the
four `GROUP BY` frequency maps (decisions filtered by `decision IS NOT NULL`), the
top-10 products by analysis count, and the 20 most recent analyses (the input is in
`created_at`-descending order). -/
def analytics_summary (analyses : List AnalysisRecord) (chats : List ChatRecord) :
    AnalyticsSummary :=
  { total_analyses := analyses.length
    categories := countBy (fun r => r.category) analyses
    seasons := countBy (fun r => r.season) analyses
    decisions :=
      countBy (fun r => r.decision.getD "")
        (analyses.filter (fun r => r.decision.isSome))
    top_products := (sortByCountDesc (countBy (fun r => r.product_name) analyses)).take 10
    recent_analyses := analyses.take 20
    total_chats := chats.length
    chat_sources := countBy (fun c => c.source) chats }

/-- Behaviour of the store underneath `get_analytics_data`.  The function first
calls `get_db_connection()` and `conn.cursor()` — *outside* its `try` block — so
opening the connection can raise (`connectFailure`); once the cursor exists, the
queries run inside the `try` and can either raise (`queryFailure`) or produce the
stored history. -/
inductive DbBehaviour where
  | connectFailure (e : String)
  | queryFailure (e : String)
  | history (analyses : List AnalysisRecord) (chats : List ChatRecord)
deriving DecidableEq

/-- What a call to `get_analytics_data` does from the caller's point of view: return
the summary dict, return the empty dict `{}` from the `except` branch, or let an
exception propagate. -/
inductive AnalyticsOutcome where
  | summary (s : AnalyticsSummary)
  | emptyObject
  | raised (e : String)
deriving DecidableEq

/-- `get_analytics_data` from `src/database.py`.  `get_db_connection()` and
`conn.cursor()` run before the `try` block, so a connection-open failure is not
caught and propagates to the caller; a failure inside the `try` (any of the
queries) is swallowed and the empty dict is returned instead. -/
def get_analytics_data (db : DbBehaviour) : AnalyticsOutcome :=
  match db with
  | .connectFailure e => .raised e
  | .queryFailure _ => .emptyObject
  | .history analyses chats => .summary (analytics_summary analyses chats)

/-! ## `src/scripts/list_offers.py` -/

/-- The two offer kinds the script can emit. -/
inductive OfferType where
  | DISCOUNT
  | BOGO
deriving DecidableEq

/-- One element of the script's `offers` list. -/
structure OfferEntry where
  product_name : String
  category : String
  current_stock : Int
  predicted_demand : Int
  offers : List OfferType
deriving DecidableEq

/-- The `item_offers` computed for one record: `int(predicted * 1.5)` is modelled
exactly as `(3 * predicted).tdiv 2`. -/
def item_offers (current predicted : Int) : List OfferType :=
  (if 0 < predicted ∧ predicted < current then [OfferType.DISCOUNT] else []) ++
  (if 0 < predicted ∧ (3 * predicted).tdiv 2 ≤ current then [OfferType.BOGO] else [])

/-- The main loop of `scripts/list_offers.py` over the records returned by
`get_recent_analyses(1000)` (newest first).  `seen` is the script's `seen` set; a
record is skipped when its product name is falsy (empty) or already seen, and the
name is added to `seen` whether or not the record yields offers. -/
def offers_go : List AnalysisRecord → List String → List OfferEntry
  | [], _ => []
  | a :: rest, seen =>
    if a.product_name = "" ∨ a.product_name ∈ seen then
      offers_go rest seen
    else
      let offs := item_offers a.current_stock a.predicted_demand
      if offs.isEmpty then
        offers_go rest (a.product_name :: seen)
      else
        { product_name := a.product_name, category := a.category,
          current_stock := a.current_stock, predicted_demand := a.predicted_demand,
          offers := offs } :: offers_go rest (a.product_name :: seen)

/-- The full offer list the script prints. -/
def list_offers (analyses : List AnalysisRecord) : List OfferEntry :=
  offers_go analyses []

/-- Claim-side restatement for the dedup step: keep, for each product name, only the
first (most recent) record, dropping records with an empty name. -/
def dedup_go : List AnalysisRecord → List String → List AnalysisRecord
  | [], _ => []
  | a :: rest, seen =>
    if a.product_name = "" ∨ a.product_name ∈ seen then
      dedup_go rest seen
    else
      a :: dedup_go rest (a.product_name :: seen)

/-- First record per (non-empty) product name, in order. -/
def first_per_product (analyses : List AnalysisRecord) : List AnalysisRecord :=
  dedup_go analyses []

/-- Claim-side restatement of the per-record offer entry: the record is listed
exactly when it earns at least one offer. -/
def entry_of (a : AnalysisRecord) : Option OfferEntry :=
  let offs := item_offers a.current_stock a.predicted_demand
  if offs.isEmpty then none
  else
    some { product_name := a.product_name, category := a.category,
           current_stock := a.current_stock, predicted_demand := a.predicted_demand,
           offers := offs }

/-! ## Helper lemmas -/

/-- Bounds characterising `pd.tdiv 5` as the rounded-down fifth of a nonnegative
integer. -/
lemma tdiv_five_bounds (pd : Int) (h : 0 ≤ pd) :
    0 ≤ pd.tdiv 5 ∧ 5 * pd.tdiv 5 ≤ pd ∧ pd < 5 * pd.tdiv 5 + 5 := by
  rw [Int.tdiv_eq_ediv h (by norm_num)]
  omega

/-- The fields shared by all three branches of `generate_recommendation`. -/
lemma gen_fields (cs pd : Int) (season : String) :
    (generate_recommendation cs pd season).safety_stock = pd.tdiv 5 ∧
    (generate_recommendation cs pd season).reorder_point = pd ∧
    (generate_recommendation cs pd season).optimal_level = pd + pd.tdiv 5 ∧
    (generate_recommendation cs pd season).required_stock = pd + pd.tdiv 5 ∧
    (generate_recommendation cs pd season).stock_gap = max 0 (pd + pd.tdiv 5 - cs) := by
  simp only [generate_recommendation]
  by_cases h1 : cs < pd
  · simp [h1]
  · by_cases h2 : 2 * cs > 3 * (pd + pd.tdiv 5)
    · simp [h1, h2]
    · simp [h1, h2]

/-- The branch structure of `generate_recommendation`: exactly one of the three
decisions fires, with its guard and `quantity_action`. -/
lemma gen_branches (cs pd : Int) (season : String) :
    (cs < pd ∧ (generate_recommendation cs pd season).decision = "ADD STOCK" ∧
      (generate_recommendation cs pd season).quantity_action = pd + pd.tdiv 5 - cs) ∨
    (¬ cs < pd ∧ 2 * cs > 3 * (pd + pd.tdiv 5) ∧
      (generate_recommendation cs pd season).decision = "REDUCE STOCK" ∧
      (generate_recommendation cs pd season).quantity_action = cs - (pd + pd.tdiv 5)) ∨
    (¬ cs < pd ∧ ¬ 2 * cs > 3 * (pd + pd.tdiv 5) ∧
      (generate_recommendation cs pd season).decision = "MAINTAIN" ∧
      (generate_recommendation cs pd season).quantity_action = cs) := by
  simp only [generate_recommendation]
  by_cases h1 : cs < pd
  · exact Or.inl ⟨h1, by simp [h1], by simp [h1]⟩
  · by_cases h2 : 2 * cs > 3 * (pd + pd.tdiv 5)
    · exact Or.inr (Or.inl ⟨h1, h2, by simp [h1, h2], by simp [h1, h2]⟩)
    · exact Or.inr (Or.inr ⟨h1, h2, by simp [h1, h2], by simp [h1, h2]⟩)

/-! ## Claim theorems -/

/-- C1: for every call to the recommendation engine with nonnegative integer current
stock and predicted demand, the returned record satisfies
`safety_stock = round_down(predicted_demand * 0.2)` (characterised as the floored
fifth), `reorder_point = predicted_demand`,
`optimal_level = predicted_demand + safety_stock`, `required_stock = optimal_level`
and `stock_gap = max 0 (optimal_level - current_stock)`. -/
theorem c1_recommendation_invariants (cs pd : Int) (season : String)
    (_hcs : 0 ≤ cs) (hpd : 0 ≤ pd) :
    0 ≤ (generate_recommendation cs pd season).safety_stock ∧
    5 * (generate_recommendation cs pd season).safety_stock ≤ pd ∧
    pd < 5 * (generate_recommendation cs pd season).safety_stock + 5 ∧
    (generate_recommendation cs pd season).reorder_point = pd ∧
    (generate_recommendation cs pd season).optimal_level =
      pd + (generate_recommendation cs pd season).safety_stock ∧
    (generate_recommendation cs pd season).required_stock =
      (generate_recommendation cs pd season).optimal_level ∧
    (generate_recommendation cs pd season).stock_gap =
      max 0 ((generate_recommendation cs pd season).optimal_level - cs) := by
  obtain ⟨hs, hr, ho, hq, hg⟩ := gen_fields cs pd season
  obtain ⟨ht0, ht1, ht2⟩ := tdiv_five_bounds pd hpd
  rw [hs, hr, ho, hq, hg]
  exact ⟨ht0, ht1, ht2, rfl, rfl, rfl, rfl⟩

/-- Witness for C1 at the spec example `recommend(50, 200, "Summer")`. -/
theorem c1_recommendation_invariants_witness :
    0 ≤ (generate_recommendation 50 200 "Summer").safety_stock ∧
    5 * (generate_recommendation 50 200 "Summer").safety_stock ≤ 200 ∧
    (200 : Int) < 5 * (generate_recommendation 50 200 "Summer").safety_stock + 5 ∧
    (generate_recommendation 50 200 "Summer").reorder_point = 200 ∧
    (generate_recommendation 50 200 "Summer").optimal_level =
      200 + (generate_recommendation 50 200 "Summer").safety_stock ∧
    (generate_recommendation 50 200 "Summer").required_stock =
      (generate_recommendation 50 200 "Summer").optimal_level ∧
    (generate_recommendation 50 200 "Summer").stock_gap =
      max 0 ((generate_recommendation 50 200 "Summer").optimal_level - 50) :=
  c1_recommendation_invariants 50 200 "Summer" (by decide) (by decide)

/-- C2: with nonnegative integer inputs the decision is determined by strict
comparisons: `current_stock < reorder_point` yields ADD STOCK with
`quantity_action = optimal_level - current_stock`;
`current_stock > optimal_level * 1.5` (exactly: `2*cs > 3*optimal`) yields
REDUCE STOCK with `quantity_action = current_stock - optimal_level`; otherwise
MAINTAIN with `quantity_action = current_stock`.  At the boundaries,
`current_stock = reorder_point` is not ADD STOCK and
`current_stock = optimal_level * 1.5` is MAINTAIN. -/
theorem c2_decision_boundaries (cs pd : Int) (season : String)
    (_hcs : 0 ≤ cs) (hpd : 0 ≤ pd) :
    (cs < (generate_recommendation cs pd season).reorder_point →
      (generate_recommendation cs pd season).decision = "ADD STOCK" ∧
      (generate_recommendation cs pd season).quantity_action =
        (generate_recommendation cs pd season).optimal_level - cs) ∧
    (2 * cs > 3 * (generate_recommendation cs pd season).optimal_level →
      (generate_recommendation cs pd season).decision = "REDUCE STOCK" ∧
      (generate_recommendation cs pd season).quantity_action =
        cs - (generate_recommendation cs pd season).optimal_level) ∧
    (¬ cs < (generate_recommendation cs pd season).reorder_point →
      ¬ 2 * cs > 3 * (generate_recommendation cs pd season).optimal_level →
      (generate_recommendation cs pd season).decision = "MAINTAIN" ∧
      (generate_recommendation cs pd season).quantity_action = cs) ∧
    (cs = (generate_recommendation cs pd season).reorder_point →
      (generate_recommendation cs pd season).decision ≠ "ADD STOCK") ∧
    (2 * cs = 3 * (generate_recommendation cs pd season).optimal_level →
      (generate_recommendation cs pd season).decision = "MAINTAIN") := by
  obtain ⟨hs, hr, ho, -, -⟩ := gen_fields cs pd season
  obtain ⟨ht0, ht1, ht2⟩ := tdiv_five_bounds pd hpd
  rw [hr, ho]
  rcases gen_branches cs pd season with
    ⟨hlt, hdec, hqty⟩ | ⟨hnlt, hgt, hdec, hqty⟩ | ⟨hnlt, hngt, hdec, hqty⟩
  · refine ⟨fun _ => ⟨hdec, by omega⟩, fun hgt => absurd hgt (by omega), ?_, ?_, ?_⟩
    · intro hn _; exact absurd hlt hn
    · intro he; omega
    · intro he; omega
  · refine ⟨fun hlt => absurd hlt hnlt, fun _ => ⟨hdec, hqty⟩, ?_, ?_, ?_⟩
    · intro _ hn; exact absurd hgt hn
    · intro _; rw [hdec]; decide
    · intro he; omega
  · refine ⟨fun hlt => absurd hlt hnlt, fun hgt => absurd hgt hngt, ?_, ?_, ?_⟩
    · intro _ _; exact ⟨hdec, hqty⟩
    · intro _; rw [hdec]; decide
    · intro _; exact hdec

/-- Witness for C2 at the spec boundary examples `recommend(181, 100, _)` (REDUCE
STOCK by 61) and `recommend(180, 100, _)` (MAINTAIN). -/
theorem c2_decision_boundaries_witness :
    ((generate_recommendation 181 100 "Summer").decision = "REDUCE STOCK" ∧
     (generate_recommendation 181 100 "Summer").quantity_action =
       181 - (generate_recommendation 181 100 "Summer").optimal_level) ∧
    ((generate_recommendation 180 100 "Summer").decision = "MAINTAIN" ∧
     (generate_recommendation 180 100 "Summer").quantity_action = 180) ∧
    (generate_recommendation 181 100 "Summer").quantity_action = 61 :=
  ⟨(c2_decision_boundaries 181 100 "Summer" (by decide) (by decide)).2.1 (by decide),
   (c2_decision_boundaries 180 100 "Summer" (by decide) (by decide)).2.2.1
     (by decide) (by decide),
   by decide⟩

/-- C7 counterexample: the claim says that with `predicted_demand = 0` every
`current_stock ≥ 0` yields MAINTAIN, but `recommend(5, 0, _)` takes the
`current_stock > optimal_level * 1.5` branch (`5 > 0`) and returns REDUCE STOCK. -/
theorem c7_zero_demand_counterexample :
    (0 : Int) ≤ 5 ∧
    (generate_recommendation 5 0 "Summer").decision = "REDUCE STOCK" ∧
    ¬ (generate_recommendation 5 0 "Summer").decision = "MAINTAIN" ∧
    (generate_recommendation 5 0 "Summer").quantity_action = 5 := by
  decide

/-- C7 (amended): when `predicted_demand = 0` and `current_stock ≥ 0`,
`safety_stock = 0`, `optimal_level = 0` and the ADD STOCK branch is unreachable;
`current_stock = 0` yields MAINTAIN with `quantity_action = 0`, while every
`current_stock > 0` yields REDUCE STOCK with `quantity_action = current_stock`
(not MAINTAIN as claimed).  Moreover, whenever the engine returns ADD STOCK with
nonnegative inputs, `quantity_action > 0`. -/
theorem c7_zero_demand_amended :
    (∀ (cs : Int) (season : String), 0 ≤ cs →
      (generate_recommendation cs 0 season).safety_stock = 0 ∧
      (generate_recommendation cs 0 season).optimal_level = 0 ∧
      (generate_recommendation cs 0 season).decision ≠ "ADD STOCK" ∧
      (cs = 0 → (generate_recommendation cs 0 season).decision = "MAINTAIN" ∧
        (generate_recommendation cs 0 season).quantity_action = 0) ∧
      (0 < cs → (generate_recommendation cs 0 season).decision = "REDUCE STOCK" ∧
        (generate_recommendation cs 0 season).quantity_action = cs)) ∧
    (∀ (cs pd : Int) (season : String), 0 ≤ cs → 0 ≤ pd →
      (generate_recommendation cs pd season).decision = "ADD STOCK" →
      0 < (generate_recommendation cs pd season).quantity_action) := by
  constructor
  · intro cs season hcs
    have hz : Int.tdiv 0 5 = 0 := rfl
    obtain ⟨hs, -, ho, -, -⟩ := gen_fields cs 0 season
    rcases gen_branches cs 0 season with
      ⟨hlt, -, -⟩ | ⟨hnlt, hgt, hdec, hqty⟩ | ⟨hnlt, hngt, hdec, hqty⟩
    · exact absurd hlt (by omega)
    · exact ⟨by omega, by omega, by rw [hdec]; decide,
        fun h0 => absurd hgt (by omega), fun _ => ⟨hdec, by omega⟩⟩
    · exact ⟨by omega, by omega, by rw [hdec]; decide,
        fun _ => ⟨hdec, by omega⟩, fun h0 => absurd h0 (by omega)⟩
  · intro cs pd season hcs hpd hadd
    obtain ⟨ht0, ht1, ht2⟩ := tdiv_five_bounds pd hpd
    rcases gen_branches cs pd season with
      ⟨hlt, -, hqty⟩ | ⟨-, -, hdec, -⟩ | ⟨-, -, hdec, -⟩
    · omega
    · rw [hdec] at hadd; exact absurd hadd (by decide)
    · rw [hdec] at hadd; exact absurd hadd (by decide)

/-- Witness for C7 (amended): `recommend(7, 0, _)` reduces, `recommend(0, 0, _)`
maintains with zero action, and an ADD STOCK outcome at `(10, 100)` has a positive
`quantity_action`. -/
theorem c7_zero_demand_amended_witness :
    ((generate_recommendation 7 0 "Summer").decision = "REDUCE STOCK" ∧
     (generate_recommendation 7 0 "Summer").quantity_action = 7) ∧
    ((generate_recommendation 0 0 "Summer").decision = "MAINTAIN" ∧
     (generate_recommendation 0 0 "Summer").quantity_action = 0) ∧
    0 < (generate_recommendation 10 100 "Summer").quantity_action :=
  ⟨(c7_zero_demand_amended.1 7 "Summer" (by decide)).2.2.2.2 (by decide),
   (c7_zero_demand_amended.1 0 "Summer" (by decide)).2.2.2.1 rfl,
   c7_zero_demand_amended.2 10 100 "Summer" (by decide) (by decide) (by decide)⟩

/-- C3 counterexample: a request with `stock = -5` passes the validation of
`api_analyze` and reaches the prediction core with a negative `current_stock`;
negative stock is not rejected by the request-handling layer. -/
theorem c3_negative_stock_counterexample :
    api_analyze [] ⟨some "Milk 1L", some "Summer", some (JsonVal.jint (-5))⟩ =
      ApiResult.success (predict_stock_requirement [] "Milk 1L" (-5) "Summer") ∧
    (predict_stock_requirement [] "Milk 1L" (-5) "Summer").current_stock < 0 := by
  decide

/-- C3 (amended): the request layer rejects only missing fields and stock values on
which Python `int()` fails; every request that reaches the prediction core does so
with `current_stock` equal to the `int()` conversion of the `stock` field — an
integer that may be negative. -/
theorem c3_validation_amended :
    (∀ (products : List Product) (req : AnalyzeRequest) (pr : PredictionResult),
      api_analyze products req = ApiResult.success pr →
      ∃ name season sv stock,
        req.product = some name ∧ req.season = some season ∧ req.stock = some sv ∧
        pyInt sv = some stock ∧
        pr = predict_stock_requirement products name stock season) ∧
    (∀ (products : List Product) (name season : String) (sv : JsonVal),
      pyInt sv = none →
      api_analyze products ⟨some name, some season, some sv⟩ =
        ApiResult.clientError "Invalid stock value") ∧
    (∀ (products : List Product) (req : AnalyzeRequest),
      (req.product = none ∨ req.season = none ∨ req.stock = none) →
      api_analyze products req = ApiResult.clientError "Missing required fields") := by
  refine ⟨?_, ?_, ?_⟩
  · rintro products ⟨op, os, ost⟩ pr h
    cases op with
    | none => simp [api_analyze] at h
    | some name =>
      cases os with
      | none => simp [api_analyze] at h
      | some season =>
        cases ost with
        | none => simp [api_analyze] at h
        | some sv =>
          cases hp : pyInt sv with
          | none => simp [api_analyze, hp] at h
          | some stock =>
            refine ⟨name, season, sv, stock, rfl, rfl, rfl, hp, ?_⟩
            simp only [api_analyze, hp, ApiResult.success.injEq] at h
            exact h.symm
  · intro products name season sv hp
    simp [api_analyze, hp]
  · rintro products ⟨op, os, ost⟩ h
    cases op <;> cases os <;> cases ost <;> simp_all [api_analyze]

/-- Witness for C3 (amended): the `stock = -5` request is accepted and the core is
invoked with the converted (negative) integer. -/
theorem c3_validation_amended_witness :
    ∃ name season sv stock,
      (AnalyzeRequest.mk (some "Milk 1L") (some "Summer")
        (some (JsonVal.jint (-5)))).product = some name ∧
      (AnalyzeRequest.mk (some "Milk 1L") (some "Summer")
        (some (JsonVal.jint (-5)))).season = some season ∧
      (AnalyzeRequest.mk (some "Milk 1L") (some "Summer")
        (some (JsonVal.jint (-5)))).stock = some sv ∧
      pyInt sv = some stock ∧
      predict_stock_requirement [] "Milk 1L" (-5) "Summer" =
        predict_stock_requirement [] name stock season :=
  c3_validation_amended.1 [] ⟨some "Milk 1L", some "Summer", some (JsonVal.jint (-5))⟩
    (predict_stock_requirement [] "Milk 1L" (-5) "Summer") rfl

/-- C4: for every product name not present in the catalog, the predictor takes the
fallback path: its result is exactly `_get_default_prediction`, with category
"Miscellaneous", price 0, unit "pack", and `predicted_demand` given by the
season-only factor table (Summer 130, Winter 90, Monsoon 120, Regular 100, any other
season 100, against the fixed base 100). -/
theorem c4_unknown_product_fallback (products : List Product) (name : String)
    (cs : Int) (season : String) (h : ∀ p ∈ products, p.name ≠ name) :
    predict_stock_requirement products name cs season =
      get_default_prediction name cs season ∧
    (predict_stock_requirement products name cs season).category = "Miscellaneous" ∧
    (predict_stock_requirement products name cs season).price = 0 ∧
    (predict_stock_requirement products name cs season).unit = "pack" ∧
    (season = "Summer" →
      (predict_stock_requirement products name cs season).predicted_demand = 130) ∧
    (season = "Winter" →
      (predict_stock_requirement products name cs season).predicted_demand = 90) ∧
    (season = "Monsoon" →
      (predict_stock_requirement products name cs season).predicted_demand = 120) ∧
    (season = "Regular" →
      (predict_stock_requirement products name cs season).predicted_demand = 100) ∧
    (season ∉ (["Summer", "Winter", "Monsoon", "Regular"] : List String) →
      (predict_stock_requirement products name cs season).predicted_demand = 100) := by
  have hfind : products.find? (fun p => p.name == name) = none := by
    rw [List.find?_eq_none]
    intro p hp
    simp [h p hp]
  have hP : predict_stock_requirement products name cs season =
      get_default_prediction name cs season := by
    unfold predict_stock_requirement
    rw [hfind]
  rw [hP]
  refine ⟨rfl, rfl, rfl, rfl, ?_, ?_, ?_, ?_, ?_⟩
  · intro hs; subst hs; rfl
  · intro hs; subst hs; rfl
  · intro hs; subst hs; rfl
  · intro hs; subst hs; rfl
  · intro hmem
    have h1 : season ≠ "Summer" := fun e => hmem (by rw [e]; exact List.mem_cons_self _ _)
    have h2 : season ≠ "Winter" := fun e => hmem (by rw [e]; simp)
    have h3 : season ≠ "Monsoon" := fun e => hmem (by rw [e]; simp)
    have h4 : season ≠ "Regular" := fun e => hmem (by rw [e]; simp)
    have hlook : List.lookup season seasonal_factors = none := by
      simp only [seasonal_factors, List.lookup, beq_eq_false_iff_ne.mpr h1,
        beq_eq_false_iff_ne.mpr h2, beq_eq_false_iff_ne.mpr h3,
        beq_eq_false_iff_ne.mpr h4]
    simp only [get_default_prediction, hlook, Option.getD_none]
    rfl

/-- Witness for C4 at the spec example `predict("Unknown Widget", 10, "Winter")`
against a one-product catalog: fallback path with demand 90, safety stock 18,
optimal level 108, reorder point 90, ADD STOCK by 98. -/
theorem c4_unknown_product_fallback_witness :
    predict_stock_requirement [⟨"Milk 1L", some "Dairy", some 60, some "pack"⟩]
        "Unknown Widget" 10 "Winter" =
      get_default_prediction "Unknown Widget" 10 "Winter" ∧
    (predict_stock_requirement [⟨"Milk 1L", some "Dairy", some 60, some "pack"⟩]
        "Unknown Widget" 10 "Winter").predicted_demand = 90 ∧
    (predict_stock_requirement [⟨"Milk 1L", some "Dairy", some 60, some "pack"⟩]
        "Unknown Widget" 10 "Winter").category = "Miscellaneous" ∧
    (predict_stock_requirement [⟨"Milk 1L", some "Dairy", some 60, some "pack"⟩]
        "Unknown Widget" 10 "Winter").recommendation.safety_stock = 18 ∧
    (predict_stock_requirement [⟨"Milk 1L", some "Dairy", some 60, some "pack"⟩]
        "Unknown Widget" 10 "Winter").recommendation.optimal_level = 108 ∧
    (predict_stock_requirement [⟨"Milk 1L", some "Dairy", some 60, some "pack"⟩]
        "Unknown Widget" 10 "Winter").recommendation.reorder_point = 90 ∧
    (predict_stock_requirement [⟨"Milk 1L", some "Dairy", some 60, some "pack"⟩]
        "Unknown Widget" 10 "Winter").recommendation.decision = "ADD STOCK" ∧
    (predict_stock_requirement [⟨"Milk 1L", some "Dairy", some 60, some "pack"⟩]
        "Unknown Widget" 10 "Winter").recommendation.quantity_action = 98 := by
  have h := c4_unknown_product_fallback
    [⟨"Milk 1L", some "Dairy", some 60, some "pack"⟩] "Unknown Widget" 10 "Winter"
    (by decide)
  exact ⟨h.1, h.2.2.2.2.2.1 rfl, h.2.1, by decide, by decide, by decide, by decide,
    by decide⟩

/-- C5: the seasonal multiplier lookup is total over all (season, category) string
pairs: on every pair present in the two-level pattern table it returns the configured
value, and on every miss it returns 1.0 (here scaled: 10); the twenty configured
entries evaluate to their exact table values. -/
theorem c5_seasonal_multiplier_total :
    (∀ season category : String,
      (List.lookup season get_default_seasonal_patterns).bind
        (fun sub => List.lookup category sub) = none →
      seasonal_multiplier season category = 10) ∧
    (∀ (season category : String) (v : Nat),
      (List.lookup season get_default_seasonal_patterns).bind
        (fun sub => List.lookup category sub) = some v →
      seasonal_multiplier season category = v) ∧
    (seasonal_multiplier "Summer" "Beverages" = 15 ∧
     seasonal_multiplier "Summer" "Fruits" = 14 ∧
     seasonal_multiplier "Summer" "Vegetables" = 13 ∧
     seasonal_multiplier "Summer" "Groceries" = 10 ∧
     seasonal_multiplier "Summer" "Personal Care" = 12) ∧
    (seasonal_multiplier "Winter" "Beverages" = 8 ∧
     seasonal_multiplier "Winter" "Fruits" = 9 ∧
     seasonal_multiplier "Winter" "Vegetables" = 12 ∧
     seasonal_multiplier "Winter" "Groceries" = 11 ∧
     seasonal_multiplier "Winter" "Personal Care" = 10) ∧
    (seasonal_multiplier "Monsoon" "Beverages" = 12 ∧
     seasonal_multiplier "Monsoon" "Fruits" = 11 ∧
     seasonal_multiplier "Monsoon" "Vegetables" = 10 ∧
     seasonal_multiplier "Monsoon" "Groceries" = 13 ∧
     seasonal_multiplier "Monsoon" "Personal Care" = 14) ∧
    (seasonal_multiplier "Regular" "Beverages" = 10 ∧
     seasonal_multiplier "Regular" "Fruits" = 10 ∧
     seasonal_multiplier "Regular" "Vegetables" = 10 ∧
     seasonal_multiplier "Regular" "Groceries" = 10 ∧
     seasonal_multiplier "Regular" "Personal Care" = 10) := by
  refine ⟨?_, ?_, by decide, by decide, by decide, by decide⟩
  · intro season category h
    unfold seasonal_multiplier
    cases hs : List.lookup season get_default_seasonal_patterns with
    | none => rfl
    | some sub =>
      rw [hs, Option.some_bind] at h
      show (List.lookup category sub).getD 10 = 10
      rw [h]
      rfl
  · intro season category v h
    unfold seasonal_multiplier
    cases hs : List.lookup season get_default_seasonal_patterns with
    | none => rw [hs] at h; simp at h
    | some sub =>
      rw [hs, Option.some_bind] at h
      show (List.lookup category sub).getD 10 = v
      rw [h]
      rfl

/-- Witness for C5: an unknown season misses the table and yields the 1.0 default,
and a configured pair yields its table value. -/
theorem c5_seasonal_multiplier_total_witness :
    seasonal_multiplier "Autumn" "Dairy" = 10 ∧
    seasonal_multiplier "Summer" "Beverages" = 15 :=
  ⟨c5_seasonal_multiplier_total.1 "Autumn" "Dairy" (by decide),
   c5_seasonal_multiplier_total.2.1 "Summer" "Beverages" 15 (by decide)⟩

/-- C6: the category base-demand lookup is total over all category strings: the ten
known categories return their exact table values and every other category returns
100. -/
theorem c6_base_demand_total :
    (∀ category : String, List.lookup category category_demands = none →
      get_category_base_demand category = 100) ∧
    (∀ (category : String) (v : Nat),
      List.lookup category category_demands = some v →
      get_category_base_demand category = v) ∧
    get_category_base_demand "Groceries" = 150 ∧
    get_category_base_demand "Dairy" = 200 ∧
    get_category_base_demand "Beverages" = 180 ∧
    get_category_base_demand "Fruits" = 120 ∧
    get_category_base_demand "Vegetables" = 140 ∧
    get_category_base_demand "Personal Care" = 90 ∧
    get_category_base_demand "Snacks" = 160 ∧
    get_category_base_demand "Frozen" = 80 ∧
    get_category_base_demand "Condiments" = 70 ∧
    get_category_base_demand "Miscellaneous" = 100 := by
  refine ⟨?_, ?_, by decide, by decide, by decide, by decide, by decide, by decide,
    by decide, by decide, by decide, by decide⟩
  · intro category h
    unfold get_category_base_demand
    rw [h]
    rfl
  · intro category v h
    unfold get_category_base_demand
    rw [h]
    rfl

/-- Witness for C6: an unknown category yields the 100 default, and a known one its
table value. -/
theorem c6_base_demand_total_witness :
    get_category_base_demand "Electronics" = 100 ∧
    get_category_base_demand "Dairy" = 200 :=
  ⟨c6_base_demand_total.1 "Electronics" (by decide),
   c6_base_demand_total.2.1 "Dairy" 200 (by decide)⟩

/-- C8 counterexample: the claim says a failure to read the history source — for
any reason — yields an empty/default summary instead of raising, but
`get_db_connection()` and `conn.cursor()` run outside the `try`, so a
connection-open failure (history source unavailable) propagates to the caller
rather than returning the empty dict or any summary. -/
theorem c8_connect_failure_counterexample :
    get_analytics_data (DbBehaviour.connectFailure "unable to open database file") =
      AnalyticsOutcome.raised "unable to open database file" ∧
    get_analytics_data (DbBehaviour.connectFailure "unable to open database file") ≠
      AnalyticsOutcome.emptyObject ∧
    get_analytics_data (DbBehaviour.connectFailure "unable to open database file") ≠
      AnalyticsOutcome.summary (analytics_summary [] []) := by
  decide

/-- C8 (amended): failures *inside* the aggregation's `try` block never propagate —
any query failure yields the empty dict, and an empty history yields zero counts,
empty frequency maps and empty record lists — but a failure to open the history
source itself (connection/cursor acquisition, outside the `try`) propagates to the
caller. -/
theorem c8_analytics_amended :
    (∀ e : String,
      get_analytics_data (DbBehaviour.queryFailure e) = AnalyticsOutcome.emptyObject) ∧
    get_analytics_data (DbBehaviour.history [] []) =
      AnalyticsOutcome.summary
        { total_analyses := 0, categories := [], seasons := [], decisions := [],
          top_products := [], recent_analyses := [], total_chats := 0,
          chat_sources := [] } ∧
    (∀ e : String,
      get_analytics_data (DbBehaviour.connectFailure e) = AnalyticsOutcome.raised e) :=
  ⟨fun _ => rfl, rfl, fun _ => rfl⟩

/-- If some table entry matches `q`, `firstContained` returns one of the table's
response strings. -/
lemma firstContained_mem {table : List (String × String)} {q r : String}
    (h : firstContained table q = some r) : r ∈ table.map (fun kv => kv.2) := by
  unfold firstContained at h
  cases hf : table.find? (fun kv => strContains kv.1 q) with
  | none => rw [hf] at h; exact absurd h (by simp)
  | some kv =>
    rw [hf] at h
    have hr : kv.2 = r := by
      have := h
      simp only [Option.map] at this
      exact Option.some.inj this
    subst hr
    exact List.mem_map_of_mem _ (List.mem_of_find?_eq_some hf)

/-- Unfolding equation for `get_fallback_response`. -/
lemma get_fallback_response_eq (query : String) :
    get_fallback_response query =
      match firstContained fallback_responses (lowerStr query) with
      | some response => response
      | none =>
        match firstContained fallback_keywords (lowerStr query) with
        | some response => response
        | none => fallback_default_msg := rfl

/-- If no table key is contained in `q`, `firstContained` returns nothing. -/
lemma firstContained_eq_none {table : List (String × String)} {q : String}
    (h : ∀ kv ∈ table, strContains kv.1 q = false) : firstContained table q = none := by
  unfold firstContained
  rw [List.find?_eq_none.mpr]
  · rfl
  · intro kv hkv
    simp [h kv hkv]

/-- C9: the chatbot keyword fallback is total and never returns an empty string: for
every query, the response is the first phrase-table entry whose key is contained in
the lowercased query, else the first keyword-table entry whose key is contained,
else the fixed default help message; when no key at all is contained, the default
message is returned. -/
theorem c9_fallback_total :
    ∀ query : String,
      get_fallback_response query ≠ "" ∧
      (get_fallback_response query ∈ fallback_responses.map (fun kv => kv.2) ∨
       get_fallback_response query ∈ fallback_keywords.map (fun kv => kv.2) ∨
       get_fallback_response query = fallback_default_msg) ∧
      (∀ r, firstContained fallback_responses (lowerStr query) = some r →
        get_fallback_response query = r) ∧
      (firstContained fallback_responses (lowerStr query) = none →
        ∀ r, firstContained fallback_keywords (lowerStr query) = some r →
        get_fallback_response query = r) ∧
      ((∀ kv ∈ fallback_responses, strContains kv.1 (lowerStr query) = false) →
       (∀ kv ∈ fallback_keywords, strContains kv.1 (lowerStr query) = false) →
        get_fallback_response query = fallback_default_msg) := by
  intro query
  have hall : ∀ r ∈ fallback_responses.map (fun kv => kv.2), r ≠ "" := by decide
  have hall2 : ∀ r ∈ fallback_keywords.map (fun kv => kv.2), r ≠ "" := by decide
  have hdm : fallback_default_msg ≠ "" := by decide
  have hval : get_fallback_response query ∈ fallback_responses.map (fun kv => kv.2) ∨
      get_fallback_response query ∈ fallback_keywords.map (fun kv => kv.2) ∨
      get_fallback_response query = fallback_default_msg := by
    rw [get_fallback_response_eq]
    cases h1 : firstContained fallback_responses (lowerStr query) with
    | some r => exact Or.inl (firstContained_mem h1)
    | none =>
      cases h2 : firstContained fallback_keywords (lowerStr query) with
      | some r => exact Or.inr (Or.inl (firstContained_mem h2))
      | none => exact Or.inr (Or.inr rfl)
  refine ⟨?_, hval, ?_, ?_, ?_⟩
  · rcases hval with h | h | h
    · exact hall _ h
    · exact hall2 _ h
    · rw [h]; exact hdm
  · intro r h1
    rw [get_fallback_response_eq, h1]
  · intro h1 r h2
    rw [get_fallback_response_eq, h1, h2]
  · intro h1 h2
    rw [get_fallback_response_eq, firstContained_eq_none h1, firstContained_eq_none h2]

/-- Witness for C9 at the query "zzz", which matches no key and gets the default
message. -/
theorem c9_fallback_total_witness :
    get_fallback_response "zzz" = fallback_default_msg :=
  (c9_fallback_total "zzz").2.2.2.2 (by decide) (by decide)

/-- One-step unfolding of `offers_go` on a cons cell. -/
lemma offers_go_cons (a : AnalysisRecord) (rest : List AnalysisRecord)
    (seen : List String) :
    offers_go (a :: rest) seen =
      if a.product_name = "" ∨ a.product_name ∈ seen then offers_go rest seen
      else if (item_offers a.current_stock a.predicted_demand).isEmpty then
        offers_go rest (a.product_name :: seen)
      else
        { product_name := a.product_name, category := a.category,
          current_stock := a.current_stock, predicted_demand := a.predicted_demand,
          offers := item_offers a.current_stock a.predicted_demand } ::
          offers_go rest (a.product_name :: seen) := rfl

/-- One-step unfolding of `dedup_go` on a cons cell. -/
lemma dedup_go_cons (a : AnalysisRecord) (rest : List AnalysisRecord)
    (seen : List String) :
    dedup_go (a :: rest) seen =
      if a.product_name = "" ∨ a.product_name ∈ seen then dedup_go rest seen
      else a :: dedup_go rest (a.product_name :: seen) := rfl

/-- Unfolding of `entry_of` without the `let`. -/
lemma entry_of_eq (a : AnalysisRecord) :
    entry_of a =
      if (item_offers a.current_stock a.predicted_demand).isEmpty then none
      else
        some { product_name := a.product_name, category := a.category,
               current_stock := a.current_stock, predicted_demand := a.predicted_demand,
               offers := item_offers a.current_stock a.predicted_demand } := rfl

/-- The script loop is the dedup pass followed by the per-record offer filter. -/
lemma offers_go_eq_filterMap : ∀ (l : List AnalysisRecord) (seen : List String),
    offers_go l seen = (dedup_go l seen).filterMap entry_of := by
  intro l
  induction l with
  | nil => intro seen; rfl
  | cons a rest ih =>
    intro seen
    rw [offers_go_cons, dedup_go_cons]
    by_cases h : a.product_name = "" ∨ a.product_name ∈ seen
    · rw [if_pos h, if_pos h, ih]
    · rw [if_neg h, if_neg h, List.filterMap_cons]
      by_cases he : (item_offers a.current_stock a.predicted_demand).isEmpty
      · rw [if_pos he, entry_of_eq, if_pos he, ih]
      · rw [if_neg he, entry_of_eq, if_neg he, ih]

/-- Names surviving the dedup pass are distinct and disjoint from `seen`. -/
lemma dedup_go_names : ∀ (l : List AnalysisRecord) (seen : List String),
    ((dedup_go l seen).map (fun a => a.product_name)).Nodup ∧
    ∀ n ∈ (dedup_go l seen).map (fun a => a.product_name), n ∉ seen := by
  intro l
  induction l with
  | nil =>
    intro seen
    rw [show dedup_go [] seen = [] from rfl]
    exact ⟨List.nodup_nil, by simp⟩
  | cons a rest ih =>
    intro seen
    rw [dedup_go_cons]
    by_cases h : a.product_name = "" ∨ a.product_name ∈ seen
    · rw [if_pos h]; exact ih seen
    · rw [if_neg h]
      obtain ⟨ihnd, ihseen⟩ := ih (a.product_name :: seen)
      push_neg at h
      constructor
      · simp only [List.map_cons, List.nodup_cons]
        exact ⟨fun hmem => (ihseen _ hmem) (List.mem_cons_self _ _), ihnd⟩
      · intro n hn
        simp only [List.map_cons, List.mem_cons] at hn
        rcases hn with rfl | hn
        · exact h.2
        · exact fun hns => (ihseen n hn) (List.mem_cons_of_mem _ hns)

/-- The offer filter keeps each entry's product name, so the output names form a
sublist of the input names. -/
lemma filterMap_entry_names_sublist : ∀ d : List AnalysisRecord,
    ((d.filterMap entry_of).map (fun e => e.product_name)).Sublist
      (d.map (fun a => a.product_name)) := by
  intro d
  induction d with
  | nil => simp
  | cons a rest ih =>
    rw [List.filterMap_cons]
    cases he : entry_of a with
    | none => exact ih.cons _
    | some e =>
      rw [entry_of_eq] at he
      by_cases hi : (item_offers a.current_stock a.predicted_demand).isEmpty
      · rw [if_pos hi] at he; cases he
      · rw [if_neg hi] at he
        injection he with he
        subst he
        simp only [List.map_cons]
        exact ih.cons₂ _

/-- A DISCOUNT offer appears exactly when demand is positive and stock strictly
exceeds it. -/
lemma discount_mem_iff (cs pd : Int) :
    OfferType.DISCOUNT ∈ item_offers cs pd ↔ (0 < pd ∧ pd < cs) := by
  unfold item_offers
  by_cases h1 : 0 < pd ∧ pd < cs <;> by_cases h2 : 0 < pd ∧ (3 * pd).tdiv 2 ≤ cs <;>
    simp [h1, h2]

/-- A BOGO offer appears exactly when demand is positive and stock is at least
`int(predicted * 1.5)`. -/
lemma bogo_mem_iff (cs pd : Int) :
    OfferType.BOGO ∈ item_offers cs pd ↔ (0 < pd ∧ (3 * pd).tdiv 2 ≤ cs) := by
  unfold item_offers
  by_cases h1 : 0 < pd ∧ pd < cs <;> by_cases h2 : 0 < pd ∧ (3 * pd).tdiv 2 ≤ cs <;>
    simp [h1, h2]

/-- C10: the offers script emits at most one entry per product name (first
occurrence in the newest-first input wins; older records of the same product are
skipped), each emitted entry carries its record's stock and demand, a DISCOUNT
offer iff `predicted_demand > 0` and `current_stock > predicted_demand`, a BOGO
offer iff `predicted_demand > 0` and `current_stock >= floor(predicted * 1.5)`,
and an entry is listed iff it earned at least one offer. -/
theorem c10_offers_characterisation (analyses : List AnalysisRecord) :
    list_offers analyses = (first_per_product analyses).filterMap entry_of ∧
    ((list_offers analyses).map (fun e => e.product_name)).Nodup ∧
    (∀ e ∈ list_offers analyses,
      (OfferType.DISCOUNT ∈ e.offers ↔
        0 < e.predicted_demand ∧ e.predicted_demand < e.current_stock) ∧
      (OfferType.BOGO ∈ e.offers ↔
        0 < e.predicted_demand ∧ (3 * e.predicted_demand).tdiv 2 ≤ e.current_stock) ∧
      e.offers ≠ []) := by
  have heq : list_offers analyses = (first_per_product analyses).filterMap entry_of :=
    offers_go_eq_filterMap analyses []
  refine ⟨heq, ?_, ?_⟩
  · rw [heq]
    exact (filterMap_entry_names_sublist (first_per_product analyses)).nodup
      (dedup_go_names analyses []).1
  · intro e he
    rw [heq] at he
    obtain ⟨a, -, hae⟩ := List.mem_filterMap.mp he
    rw [entry_of_eq] at hae
    by_cases hi : (item_offers a.current_stock a.predicted_demand).isEmpty
    · rw [if_pos hi] at hae; cases hae
    · rw [if_neg hi] at hae
      injection hae with hae
      subst hae
      refine ⟨discount_mem_iff _ _, bogo_mem_iff _ _, ?_⟩
      intro hnil
      have hoff : item_offers a.current_stock a.predicted_demand = [] := hnil
      exact hi (by rw [hoff]; rfl)

/-- Witness for C10 on a three-record history: the newer `Milk` record (stock 300,
demand 200) wins over the older one and earns both offers; the discount condition
holds for the emitted entry. -/
theorem c10_offers_characterisation_witness :
    list_offers
        [⟨"Milk", "Dairy", "Summer", some "MAINTAIN", 300, 200⟩,
         ⟨"Milk", "Dairy", "Winter", some "ADD STOCK", 10, 200⟩,
         ⟨"Bread", "Groceries", "Summer", some "MAINTAIN", 100, 150⟩] =
      (first_per_product
        [⟨"Milk", "Dairy", "Summer", some "MAINTAIN", 300, 200⟩,
         ⟨"Milk", "Dairy", "Winter", some "ADD STOCK", 10, 200⟩,
         ⟨"Bread", "Groceries", "Summer", some "MAINTAIN", 100, 150⟩]).filterMap
        entry_of ∧
    (OfferType.DISCOUNT ∈
        (⟨"Milk", "Dairy", 300, 200,
          [OfferType.DISCOUNT, OfferType.BOGO]⟩ : OfferEntry).offers ↔
      0 < (⟨"Milk", "Dairy", 300, 200,
            [OfferType.DISCOUNT, OfferType.BOGO]⟩ : OfferEntry).predicted_demand ∧
        (⟨"Milk", "Dairy", 300, 200,
          [OfferType.DISCOUNT, OfferType.BOGO]⟩ : OfferEntry).predicted_demand <
          (⟨"Milk", "Dairy", 300, 200,
            [OfferType.DISCOUNT, OfferType.BOGO]⟩ : OfferEntry).current_stock) := by
  have h := c10_offers_characterisation
    [⟨"Milk", "Dairy", "Summer", some "MAINTAIN", 300, 200⟩,
     ⟨"Milk", "Dairy", "Winter", some "ADD STOCK", 10, 200⟩,
     ⟨"Bread", "Groceries", "Summer", some "MAINTAIN", 100, 150⟩]
  exact ⟨h.1,
    (h.2.2 ⟨"Milk", "Dairy", 300, 200, [OfferType.DISCOUNT, OfferType.BOGO]⟩
      (by decide)).1⟩
